import Mathlib

/-!
Shallow embedding of the resume parsing and ATS scoring core of the
placement-backend repository (src/main.py), together with proofs of the
spec claims about it.

Python strings are modelled as Lean `String` (a list of characters);
Python integers as `Nat` (all arithmetic here is on small non-negative
counts, no overflow is possible); Python lists as Lean `List`; the
section dictionary as a structure with one `List String` field per key.
-/

set_option maxRecDepth 20000

namespace PlacementAts

/-! ### Substring containment, modelling Python's `in` operator on strings -/

/-- Does `a` start `b`? -/
def startsL : List Char → List Char → Bool
  | [], _ => true
  | _ :: _, [] => false
  | a :: as, b :: bs => a == b && startsL as bs

/-- `containsSub needle hay` is Python's `needle in hay` on character lists. -/
def containsSub (needle : List Char) : List Char → Bool
  | [] => needle.isEmpty
  | c :: t => startsL needle (c :: t) || containsSub needle t

/-- Python's `needle in hay` for strings. -/
def strContains (needle hay : String) : Bool :=
  containsSub needle.toList hay.toList

/-! ### Structural re-implementations of the Python string primitives

The corresponding core `String` functions recurse on byte positions, so
they are re-implemented here by structural recursion on the character
list, with the semantics of the Python methods used by the source
(`str.split(sep)`, `str.lower`, `str.strip`, `" ".join`, `str.endswith`). -/

/-- `s.split(sep)` for a one-character separator: no merging of adjacent
separators, empty parts kept, `[""]` for the empty string. -/
def splitOnCharL (sep : Char) : List Char → List (List Char)
  | [] => [[]]
  | c :: t =>
    if c = sep then [] :: splitOnCharL sep t
    else
      match splitOnCharL sep t with
      | [] => [[c]]
      | h :: r => (c :: h) :: r

/-- `str.lower()` (ASCII case folding, which covers every keyword the
source compares against). -/
def pyLower (s : String) : String := String.mk (s.toList.map Char.toLower)

/-- `str.strip()`: leading and trailing whitespace removed. -/
def pyStrip (s : String) : String :=
  String.mk (((s.toList.dropWhile Char.isWhitespace).reverse.dropWhile
    Char.isWhitespace).reverse)

/-- `text.split("\n")`. -/
def pySplitLines (text : String) : List String :=
  (splitOnCharL '\n' text.toList).map String.mk

/-- `" ".join(lines)`. -/
def joinSpace : List String → String
  | [] => ""
  | [x] => x
  | x :: y :: r => x ++ " " ++ joinSpace (y :: r)

/-- `s.endswith(post)`. -/
def endsWithL (s post : List Char) : Bool :=
  startsL post.reverse s.reverse

/-! ### A small backtracking regular-expression engine

`re.findall` in `parse_resume` uses two concrete patterns (an e-mail and a
phone pattern).  We embed a leftmost, greedy (Python-semantics)
backtracking matcher for a small regex language that is sufficient to
express both patterns: character classes, concatenation, prioritised
alternation, greedy Kleene star and the zero-width word boundary. -/

inductive RE where
  | eps : RE
  | cls (p : Char → Bool) : RE
  | cat (a b : RE) : RE
  | alt (a b : RE) : RE
  | star (a : RE) : RE
  | wordB : RE

/-- Python's regex word character `\w` restricted to ASCII as used by `\b`. -/
def isWordChar (c : Char) : Bool := c.isAlphanum || c == '_'

/-- Fuel-indexed CPS matcher.  `reMatch fuel r prev s k` tries to match `r`
at the start of `s` (with `prev` the character just before `s`, for the
`\b` assertion) and passes the remaining input to the continuation `k`.
Alternatives and the star are tried in greedy (Python) preference order,
so the first success is exactly the match Python's engine would yield.
The fuel only bounds recursion depth; callers supply enough of it. -/
def reMatch : Nat → RE → Option Char → List Char →
    (Option Char → List Char → Option Nat) → Option Nat
  | 0, _, _, _, _ => none
  | _ + 1, RE.eps, prev, s, k => k prev s
  | _ + 1, RE.cls p, _, s, k =>
    match s with
    | [] => none
    | c :: rest => if p c then k (some c) rest else none
  | n + 1, RE.cat a b, prev, s, k =>
    reMatch n a prev s (fun p2 s2 => reMatch n b p2 s2 k)
  | n + 1, RE.alt a b, prev, s, k =>
    match reMatch n a prev s k with
    | some r => some r
    | none => reMatch n b prev s k
  | n + 1, RE.star a, prev, s, k =>
    match reMatch n a prev s (fun p2 s2 => reMatch n (RE.star a) p2 s2 k) with
    | some r => some r
    | none => k prev s
  | _ + 1, RE.wordB, prev, s, k =>
    let pw := match prev with | some c => isWordChar c | none => false
    let nw := match s with | c :: _ => isWordChar c | [] => false
    if pw != nw then k prev s else none

/-- Try to match `r` at the very start of `s`; returns the length of the
unconsumed suffix on success. -/
def tryMatch (r : RE) (prev : Option Char) (s : List Char) : Option Nat :=
  reMatch (4 * s.length + 200) r prev s (fun _ rest => some rest.length)

/-- Leftmost scan: the first position where `r` matches wins, and the
(greedy) match found there is returned — the first element of Python's
`re.findall` for a pattern without capturing groups. -/
def scanFirst (r : RE) (prev : Option Char) (s : List Char) : Option (List Char) :=
  match tryMatch r prev s with
  | some restLen => some (s.take (s.length - restLen))
  | none =>
    match s with
    | [] => none
    | c :: rest => scanFirst r (some c) rest

/-- First match of `r` in `text`, as a string. -/
def findFirst (r : RE) (text : String) : Option String :=
  (scanFirst r none text.toList).map (fun l => String.mk l)

/-! ### The two patterns of `parse_resume` (src/main.py lines 175-176) -/

/-- `x?` (greedy). -/
def reOpt (a : RE) : RE := RE.alt a RE.eps

/-- Up to `n` further greedy repetitions of `a`. -/
def reRepExtra (a : RE) : Nat → RE
  | 0 => RE.eps
  | n + 1 => RE.alt (RE.cat a (reRepExtra a n)) RE.eps

/-- `a{1,n}` (greedy). -/
def reRep1 (a : RE) (n : Nat) : RE := RE.cat a (reRepExtra a (n - 1))

/-- `a+` (greedy). -/
def rePlus (a : RE) : RE := RE.cat a (RE.star a)

def digitC : RE := RE.cls Char.isDigit

/-- `[A-Za-z0-9._%+-]`. -/
def emailLocalC : RE :=
  RE.cls (fun c => c.isAlphanum || c == '.' || c == '_' || c == '%' || c == '+' || c == '-')

/-- `[A-Za-z0-9.-]`. -/
def emailDomainC : RE := RE.cls (fun c => c.isAlphanum || c == '.' || c == '-')

/-- `[A-Z|a-z]` — note the literal `|` inside the class, as in the source. -/
def emailTldC : RE := RE.cls (fun c => c.isAlpha || c == '|')

/-- `email_pattern`: `\b[A-Za-z0-9._%+-]+@[A-Za-z0-9.-]+\.[A-Z|a-z]{2,}\b`. -/
def emailRE : RE :=
  RE.cat RE.wordB
    (RE.cat (rePlus emailLocalC)
      (RE.cat (RE.cls (· == '@'))
        (RE.cat (rePlus emailDomainC)
          (RE.cat (RE.cls (· == '.'))
            (RE.cat (RE.cat emailTldC (rePlus emailTldC)) RE.wordB)))))

/-- `[-\s\.]` — dash, whitespace or dot (Python `\s` modelled by
`Char.isWhitespace`). -/
def sepC : RE := RE.cls (fun c => c == '-' || c.isWhitespace || c == '.')

/-- `phone_pattern`:
`[\+]?[(]?[0-9]{1,4}[)]?[-\s\.]?[(]?[0-9]{1,4}[)]?[-\s\.]?[0-9]{1,4}[-\s\.]?[0-9]{1,9}`. -/
def phoneRE : RE :=
  RE.cat (reOpt (RE.cls (· == '+')))
    (RE.cat (reOpt (RE.cls (· == '(')))
      (RE.cat (reRep1 digitC 4)
        (RE.cat (reOpt (RE.cls (· == ')')))
          (RE.cat (reOpt sepC)
            (RE.cat (reOpt (RE.cls (· == '(')))
              (RE.cat (reRep1 digitC 4)
                (RE.cat (reOpt (RE.cls (· == ')')))
                  (RE.cat (reOpt sepC)
                    (RE.cat (reRep1 digitC 4)
                      (RE.cat (reOpt sepC) (reRep1 digitC 9)))))))))))

/-! ### Section keys and the section map (the `parsed_data` dictionary) -/

inductive SectionKey where
  | personal_info | education | experience | projects | skills | certifications
  | research | thesis | startups | achievements | languages | interests | other_sections
  deriving DecidableEq, Repr

/-- The `parsed_data` dictionary of `parse_resume`: one (possibly empty)
list of lines per fixed key.  The final Python dict-comprehension
`{k: v for k, v in parsed_data.items() if v}` drops empty lists; since
every later read uses `parsed_data.get(key, [])`, a dropped key and an
empty list are observationally identical, so the structure keeps all 13
fields and absence is represented by the empty list. -/
structure SectionMap where
  personal_info : List String
  education : List String
  experience : List String
  projects : List String
  skills : List String
  certifications : List String
  research : List String
  thesis : List String
  startups : List String
  achievements : List String
  languages : List String
  interests : List String
  other_sections : List String
  deriving DecidableEq, Repr

def SectionMap.empty : SectionMap :=
  ⟨[], [], [], [], [], [], [], [], [], [], [], [], []⟩

/-- `parsed_data[k].extend(content)`. -/
def SectionMap.extendKey (m : SectionMap) (k : SectionKey) (content : List String) :
    SectionMap :=
  match k with
  | SectionKey.personal_info => { m with personal_info := m.personal_info ++ content }
  | SectionKey.education => { m with education := m.education ++ content }
  | SectionKey.experience => { m with experience := m.experience ++ content }
  | SectionKey.projects => { m with projects := m.projects ++ content }
  | SectionKey.skills => { m with skills := m.skills ++ content }
  | SectionKey.certifications => { m with certifications := m.certifications ++ content }
  | SectionKey.research => { m with research := m.research ++ content }
  | SectionKey.thesis => { m with thesis := m.thesis ++ content }
  | SectionKey.startups => { m with startups := m.startups ++ content }
  | SectionKey.achievements => { m with achievements := m.achievements ++ content }
  | SectionKey.languages => { m with languages := m.languages ++ content }
  | SectionKey.interests => { m with interests := m.interests ++ content }
  | SectionKey.other_sections => { m with other_sections := m.other_sections ++ content }

/-- The 13 value lists of the map, in key declaration order. -/
def SectionMap.values (m : SectionMap) : List (List String) :=
  [m.personal_info, m.education, m.experience, m.projects, m.skills,
   m.certifications, m.research, m.thesis, m.startups, m.achievements,
   m.languages, m.interests, m.other_sections]

/-- The `section_keywords` table of `parse_resume`, in source declaration
order (src/main.py lines 141-154). -/
def sectionKeywords : List (SectionKey × List String) :=
  [(SectionKey.personal_info, ["name", "contact", "email", "phone", "address", "profile"]),
   (SectionKey.education,
     ["education", "academic", "qualification", "degree", "university", "college"]),
   (SectionKey.experience,
     ["experience", "employment", "work history", "professional experience"]),
   (SectionKey.projects, ["projects", "personal projects", "academic projects"]),
   (SectionKey.skills, ["skills", "technical skills", "competencies", "expertise"]),
   (SectionKey.certifications, ["certifications", "certificates", "licenses"]),
   (SectionKey.research, ["research", "research papers", "publications"]),
   (SectionKey.thesis, ["thesis", "dissertation"]),
   (SectionKey.startups, ["startup", "entrepreneurship", "venture"]),
   (SectionKey.achievements, ["achievements", "awards", "honors", "accomplishments"]),
   (SectionKey.languages, ["languages", "language proficiency"]),
   (SectionKey.interests, ["interests", "hobbies"])]

/-- Per-entry header test of the scan loop: some keyword of the entry is a
substring of the lower-cased line and the line has fewer than 50
characters (src/main.py line 197). -/
def headerMatch (line : String) (entry : SectionKey × List String) : Bool :=
  entry.2.any (fun kw => strContains kw (pyLower line) && decide (line.length < 50))

/-- The header search of the scan loop: first entry (in table order) whose
test fires; `none` when the line is not a header. -/
def findHeader (line : String) : Option SectionKey :=
  (sectionKeywords.find? (headerMatch line)).map Prod.fst

/-! ### The line scan of `parse_resume` (src/main.py lines 172-214) -/

structure ParseState where
  cur : Option SectionKey
  buf : List String
  acc : SectionMap
  deriving Repr

/-- One iteration of the `for line in lines` loop. -/
def parseStep (st : ParseState) (rawLine : String) : ParseState :=
  let line := pyStrip rawLine
  if line = "" then st
  else
    match findHeader line with
    | some k =>
      let acc1 :=
        match st.cur with
        | some prevKey => if st.buf = [] then st.acc else st.acc.extendKey prevKey st.buf
        | none => st.acc
      { cur := some k, buf := [], acc := acc1 }
    | none =>
      match st.cur with
      | some _ => { st with buf := st.buf ++ [line] }
      | none => { st with acc := st.acc.extendKey SectionKey.personal_info [line] }

/-- The final flush after the scan loop (src/main.py lines 213-214):
`if current_section and current_content: parsed_data[current_section].extend(...)`. -/
def finishScan (fin : ParseState) : SectionMap :=
  match fin.cur with
  | some k => if fin.buf = [] then fin.acc else fin.acc.extendKey k fin.buf
  | none => fin.acc

/-- The e-mail/phone pre-population of `parsed_data` before the line scan
(src/main.py lines 178-185): the first match of each pattern over the
space-joined text, if any, is appended to `personal_info`. -/
def initMap (allText : String) : SectionMap :=
  let m1 :=
    match findFirst emailRE allText with
    | some e => SectionMap.empty.extendKey SectionKey.personal_info ["Email: " ++ e]
    | none => SectionMap.empty
  match findFirst phoneRE allText with
  | some p => m1.extendKey SectionKey.personal_info ["Phone: " ++ p]
  | none => m1

/-- `parse_resume` (src/main.py lines 137-218). -/
def parse_resume (text : String) : SectionMap :=
  let lines := pySplitLines text
  finishScan (lines.foldl parseStep ⟨none, [], initMap (joinSpace lines)⟩)

/-! ### The ATS scorer, `calculate_ats_score` (src/main.py lines 220-393) -/

/-- One entry of the `scoring_breakdown` dict: criterion name, score, max. -/
structure BEntry where
  name : String
  score : Nat
  max : Nat
  deriving DecidableEq, Repr

/-- The result dictionary of `calculate_ats_score`.  The Python
`percentage` is `round(score / 100 * 100, 1)`, a float; for an integer
`0 <= score <= 100` the IEEE-754 round-trip error is far below the
half-ulp of one decimal place, so the rounded value is exactly the
integer `score` and is modelled as such. -/
structure ScoreReport where
  score : Nat
  max_score : Nat
  percentage : Nat
  rating : String
  rating_color : String
  feedback : List String
  scoring_breakdown : List BEntry
  recommendations : List String
  deriving DecidableEq, Repr

/-- `any("email" in item.lower() for item in parsed_data.get("personal_info", []))`. -/
def hasEmailTag (pd : SectionMap) : Bool :=
  pd.personal_info.any (fun item => strContains "email" (pyLower item))

def hasPhoneTag (pd : SectionMap) : Bool :=
  pd.personal_info.any (fun item => strContains "phone" (pyLower item))

def contact_score (pd : SectionMap) : Nat :=
  (if hasEmailTag pd then 5 else 0) + (if hasPhoneTag pd then 5 else 0)

def contactFB (pd : SectionMap) : List String :=
  (if hasEmailTag pd then ["✓ Email address found"] else ["✗ Missing email address"]) ++
  (if hasPhoneTag pd then ["✓ Phone number found"] else ["✗ Missing phone number"])

def education_score (pd : SectionMap) : Nat :=
  if pd.education = [] then 0 else min 15 (pd.education.length * 5)

def educationFB (pd : SectionMap) : List String :=
  if pd.education = [] then ["✗ No education section found"]
  else ["✓ Education section found with " ++ toString pd.education.length ++ " entries"]

/-- `re.search(r"\d+[%+]?", item)` succeeds exactly when `item` contains a
digit (the `[%+]?` suffix is optional), so `has_metrics` is: some
experience line contains a digit. -/
def hasMetrics (items : List String) : Bool :=
  items.any (fun item => item.toList.any Char.isDigit)

/-- The (uncapped) `experience_score` variable: `min(25, count*5)` plus a
`+5` metrics bonus.  The breakdown and the total use `min(experience_score, 25)`. -/
def experience_score (pd : SectionMap) : Nat :=
  if pd.experience = [] then 0
  else
    min 25 (pd.experience.length * 5) + (if hasMetrics pd.experience then 5 else 0)

def experienceFB (pd : SectionMap) : List String :=
  if pd.experience = [] then ["✗ No work experience section found"]
  else
    ["✓ Work experience section found with " ++ toString pd.experience.length ++ " entries"] ++
    (if hasMetrics pd.experience then ["✓ Quantifiable achievements found (numbers/metrics)"]
     else [])

/-- `sum(len(item.split(",")) for item in skills_items)`. -/
def skills_count (pd : SectionMap) : Nat :=
  (pd.skills.map (fun item => (splitOnCharL ',' item.toList).length)).sum

def skills_score (pd : SectionMap) : Nat :=
  if pd.skills = [] then 0 else min 15 (skills_count pd)

def skillsFB (pd : SectionMap) : List String :=
  if pd.skills = [] then ["✗ No skills section found"]
  else ["✓ Skills section found with approximately " ++ toString (skills_count pd) ++ " skills"]

def projects_score (pd : SectionMap) : Nat :=
  if pd.projects = [] then 0 else min 10 (pd.projects.length * 3)

def projectsFB (pd : SectionMap) : List String :=
  if pd.projects = [] then ["⚠ No projects section found"]
  else ["✓ Projects section found with " ++ toString pd.projects.length ++ " projects"]

def cert_score (pd : SectionMap) : Nat :=
  if pd.certifications = [] then 0 else min 8 (pd.certifications.length * 2)

def certFB (pd : SectionMap) : List String :=
  if pd.certifications = [] then ["⚠ No certifications listed"]
  else ["✓ Certifications found: " ++ toString pd.certifications.length ++ " certificates"]

def research_score (pd : SectionMap) : Nat :=
  if pd.research = [] then 0 else min 7 (pd.research.length * 3)

/-- Note: the research block of the source has no `else` branch — an empty
research section contributes no feedback line at all. -/
def researchFB (pd : SectionMap) : List String :=
  if pd.research = [] then []
  else ["✓ Research/Publications found: " ++ toString pd.research.length ++ " papers"]

/-- `len([k for k, v in parsed_data.items() if v])`. -/
def section_count (pd : SectionMap) : Nat :=
  (pd.values.filter (fun v => v ≠ [])).length

/-- The fixed `action_verbs` list (src/main.py lines 322-335). -/
def action_verbs : List String :=
  ["developed", "designed", "implemented", "managed", "led", "created",
   "built", "improved", "optimized", "achieved", "delivered", "launched"]

/-- `sum(1 for verb in action_verbs if verb in text_lower)`. -/
def found_verbs (fullText : String) : Nat :=
  (action_verbs.filter (fun v => strContains v (pyLower fullText))).length

def formatting_score (pd : SectionMap) (fullText : String) : Nat :=
  (if 4 ≤ section_count pd then 5 else 0) +
  (if 5 ≤ found_verbs fullText then 5
   else if 2 ≤ found_verbs fullText then 3 else 0)

/-- Note: neither formatting signal has an `else` feedback branch — when
both miss, the formatting criterion contributes no feedback line. -/
def formattingFB (pd : SectionMap) (fullText : String) : List String :=
  (if 4 ≤ section_count pd then ["✓ Well-structured with multiple sections"] else []) ++
  (if 5 ≤ found_verbs fullText then
     ["✓ Strong action verbs used (" ++ toString (found_verbs fullText) ++ " found)"]
   else if 2 ≤ found_verbs fullText then
     ["⚠ Some action verbs used (" ++ toString (found_verbs fullText) ++ " found)"]
   else [])

/-- The rating chain on the percentage (here: the integer score). -/
def ratingOf (percentage : Nat) : String × String :=
  if 90 ≤ percentage then ("Excellent", "green")
  else if 75 ≤ percentage then ("Very Good", "blue")
  else if 60 ≤ percentage then ("Good", "yellow")
  else if 40 ≤ percentage then ("Fair", "orange")
  else ("Needs Improvement", "red")

def recommendationsOf (pd : SectionMap) (fullText : String) : List String :=
  (if contact_score pd < 10 then ["Add complete contact information (email and phone)"] else []) ++
  (if education_score pd < 10 then ["Add or expand your education section"] else []) ++
  (if experience_score pd < 15 then
     ["Add more work experience details with quantifiable achievements"] else []) ++
  (if skills_score pd < 10 then
     ["Expand your skills section with relevant technical and soft skills"] else []) ++
  (if projects_score pd < 5 then ["Include relevant projects to showcase your abilities"] else []) ++
  (if cert_score pd < 4 then ["Add professional certifications if available"] else []) ++
  (if formatting_score pd fullText < 7 then
     ["Use more action verbs and improve resume structure"] else [])

/-- `calculate_ats_score` (src/main.py lines 220-393).  The sequential
`feedback.append`/`score +=`/`scoring_breakdown[...] =` statements of the
source are assembled block by block, in source order. -/
def calculate_ats_score (pd : SectionMap) (fullText : String) : ScoreReport :=
  let score :=
    contact_score pd + education_score pd + min (experience_score pd) 25 +
    skills_score pd + projects_score pd + cert_score pd + research_score pd +
    formatting_score pd fullText
  let feedback :=
    contactFB pd ++ educationFB pd ++ experienceFB pd ++ skillsFB pd ++
    projectsFB pd ++ certFB pd ++ researchFB pd ++ formattingFB pd fullText
  let breakdown :=
    [⟨"Contact Information", contact_score pd, 10⟩,
     ⟨"Education", education_score pd, 15⟩,
     ⟨"Work Experience", min (experience_score pd) 25, 25⟩,
     ⟨"Skills", skills_score pd, 15⟩,
     ⟨"Projects", projects_score pd, 10⟩,
     ⟨"Certifications", cert_score pd, 8⟩,
     ⟨"Research & Publications", research_score pd, 7⟩,
     ⟨"Formatting & Keywords", formatting_score pd fullText, 10⟩]
  let recs := recommendationsOf pd fullText
  { score := score
    max_score := 100
    percentage := score
    rating := (ratingOf score).1
    rating_color := (ratingOf score).2
    feedback := feedback
    scoring_breakdown := breakdown
    recommendations := if recs = [] then ["Your resume looks great! Keep it updated."] else recs }

/-! ### Null inputs to the scorer

`calculate_ats_score(None, text)` (resp. a `None` text) raises in Python
at the very first attribute access (`parsed_data.get` / `full_text.lower`),
before any report is produced; the spec's error vocabulary calls this
failure `InvalidInput`.  The wrapper makes the raise explicit. -/

inductive AtsError where
  | invalidInput
  deriving DecidableEq, Repr

def calc_ats_checked : Option SectionMap → Option String → Except AtsError ScoreReport
  | some pd, some fullText => Except.ok (calculate_ats_score pd fullText)
  | none, _ => Except.error AtsError.invalidInput
  | some _, none => Except.error AtsError.invalidInput

/-! ### The upload endpoint's format dispatch (src/main.py lines 702-741)

Only the pipeline from the filename-extension dispatch onward is
modelled; authentication and file-presence checks come earlier in the
handler and are external to the core.  Extraction itself (PyPDF2 /
python-docx / UTF-8 decoding) is an external collaborator: it is passed
in as a function from the recognised format to the extracted text. -/

inductive ResumeFormat where
  | pdf | docx | txt
  deriving DecidableEq, Repr

/-- The `filename.endswith(...)` dispatch on the lower-cased filename. -/
def dispatchFormat (filename : String) : Option ResumeFormat :=
  let f := (pyLower filename).toList
  if endsWithL f ".pdf".toList then some ResumeFormat.pdf
  else if endsWithL f ".docx".toList then some ResumeFormat.docx
  else if endsWithL f ".txt".toList then some ResumeFormat.txt
  else none

inductive UploadResponse where
  | unsupported (msg : String)
  | ok (filename : String) (parsed : SectionMap) (ats : ScoreReport)
  deriving Repr

/-- The body of `upload_resume_for_ats` from the extension dispatch on:
an unsupported extension returns the 400 error immediately, otherwise the
extracted text is parsed and scored. -/
def upload_resume_for_ats (filename : String) (extract : ResumeFormat → String) :
    UploadResponse :=
  match dispatchFormat filename with
  | none => UploadResponse.unsupported "Unsupported file format. Please upload PDF, DOCX, or TXT"
  | some fmt =>
    let text := extract fmt
    let parsed := parse_resume text
    UploadResponse.ok filename parsed (calculate_ats_score parsed text)

/-! ## Score-bound helper lemmas -/

lemma contact_score_le (pd : SectionMap) : contact_score pd ≤ 10 := by
  unfold contact_score; split_ifs <;> omega

lemma education_score_le (pd : SectionMap) : education_score pd ≤ 15 := by
  unfold education_score; split_ifs <;> omega

lemma skills_score_le (pd : SectionMap) : skills_score pd ≤ 15 := by
  unfold skills_score; split_ifs <;> omega

lemma projects_score_le (pd : SectionMap) : projects_score pd ≤ 10 := by
  unfold projects_score; split_ifs <;> omega

lemma cert_score_le (pd : SectionMap) : cert_score pd ≤ 8 := by
  unfold cert_score; split_ifs <;> omega

lemma research_score_le (pd : SectionMap) : research_score pd ≤ 7 := by
  unfold research_score; split_ifs <;> omega

lemma formatting_score_le (pd : SectionMap) (fullText : String) :
    formatting_score pd fullText ≤ 10 := by
  unfold formatting_score; split_ifs <;> omega

/-- C4: for every section map and text the total score is between 0 and
100, every breakdown entry is at most its declared cap (Contact 10,
Education 15, Work Experience 25, Skills 15, Projects 10,
Certifications 8, Research 7, Formatting 10), and the caps sum to 100. -/
theorem claim4_score_bounds (pd : SectionMap) (fullText : String) :
    0 ≤ (calculate_ats_score pd fullText).score ∧
    (calculate_ats_score pd fullText).score ≤ 100 ∧
    (∀ e ∈ (calculate_ats_score pd fullText).scoring_breakdown, e.score ≤ e.max) ∧
    ((calculate_ats_score pd fullText).scoring_breakdown.map BEntry.max).sum = 100 := by
  have hc := contact_score_le pd
  have he := education_score_le pd
  have hs := skills_score_le pd
  have hp := projects_score_le pd
  have hce := cert_score_le pd
  have hr := research_score_le pd
  have hf := formatting_score_le pd fullText
  refine ⟨Nat.zero_le _, ?_, ?_, ?_⟩
  · simp only [calculate_ats_score]
    omega
  · intro e hmem
    simp only [calculate_ats_score, List.mem_cons, List.not_mem_nil, or_false] at hmem
    rcases hmem with h | h | h | h | h | h | h | h <;> subst h <;> simp only [] <;> omega
  · simp [calculate_ats_score]

/-- C10: the total score returned by the scorer equals the sum of the
`score` fields over the eight entries of the scoring breakdown. -/
theorem claim10_total_is_breakdown_sum (pd : SectionMap) (fullText : String) :
    (calculate_ats_score pd fullText).score =
      ((calculate_ats_score pd fullText).scoring_breakdown.map BEntry.score).sum := by
  simp only [calculate_ats_score, List.map_cons, List.map_nil, List.sum_cons, List.sum_nil]
  omega

/-- C8: appending one line to the experience section never decreases the
Work Experience sub-score `min(experience_score, 25)`, where
`experience_score` is `min(25, count*5)` plus a `+5` bonus when some
experience line contains a digit; the second conjunct ties this
sub-score to the "Work Experience" entry of the report. -/
theorem claim8_experience_monotone (pd : SectionMap) (fullText line : String) :
    (⟨"Work Experience", min (experience_score pd) 25, 25⟩ : BEntry) ∈
      (calculate_ats_score pd fullText).scoring_breakdown ∧
    min (experience_score pd) 25 ≤
      min (experience_score { pd with experience := pd.experience ++ [line] }) 25 := by
  constructor
  · simp [calculate_ats_score]
  · unfold experience_score
    by_cases h : pd.experience = []
    · simp [h]
    · have h2 : pd.experience ++ [line] ≠ [] := by simp
      have hstep : hasMetrics pd.experience = true →
          hasMetrics (pd.experience ++ [line]) = true := by
        intro hm
        simp only [hasMetrics, List.any_append, Bool.or_eq_true]
        exact Or.inl hm
      simp only [if_neg h, if_neg h2, List.length_append, List.length_cons,
        List.length_nil]
      cases h1 : hasMetrics pd.experience with
      | true =>
        have h4 : hasMetrics (pd.experience ++ [line]) = true := hstep h1
        simp only [h4, if_true]
        omega
      | false =>
        split_ifs <;> omega

/-- C9: a filename whose (lower-cased) extension is none of .pdf, .docx,
.txt is answered with the UnsupportedFormat error, for every possible
extraction result — the parser and scorer are never reached. -/
theorem claim9_unsupported_format (filename : String) (extract : ResumeFormat → String)
    (h1 : endsWithL (pyLower filename).toList ".pdf".toList = false)
    (h2 : endsWithL (pyLower filename).toList ".docx".toList = false)
    (h3 : endsWithL (pyLower filename).toList ".txt".toList = false) :
    upload_resume_for_ats filename extract =
      UploadResponse.unsupported "Unsupported file format. Please upload PDF, DOCX, or TXT" := by
  unfold upload_resume_for_ats dispatchFormat
  simp only []
  rw [h1, h2, h3]
  rfl

/-- Witness for C9 at the concrete unsupported upload "resume.xlsx". -/
theorem claim9_witness :
    (endsWithL (pyLower "resume.xlsx").toList ".pdf".toList = false) ∧
    (endsWithL (pyLower "resume.xlsx").toList ".docx".toList = false) ∧
    (endsWithL (pyLower "resume.xlsx").toList ".txt".toList = false) ∧
    upload_resume_for_ats "resume.xlsx" (fun _ => "") =
      UploadResponse.unsupported "Unsupported file format. Please upload PDF, DOCX, or TXT" :=
  ⟨by decide, by decide, by decide,
   claim9_unsupported_format "resume.xlsx" (fun _ => "") (by decide) (by decide) (by decide)⟩

/-! ## Substring characterisation lemmas -/

lemma startsL_iff (a : List Char) : ∀ b : List Char, startsL a b = true ↔ ∃ t, a ++ t = b := by
  induction a with
  | nil => intro b; simp [startsL]
  | cons x xs ih =>
    intro b
    cases b with
    | nil => simp [startsL]
    | cons y ys =>
      simp only [startsL, Bool.and_eq_true, beq_iff_eq, ih ys, List.cons_append,
        List.cons.injEq]
      constructor
      · rintro ⟨rfl, t, rfl⟩; exact ⟨t, rfl, rfl⟩
      · rintro ⟨t, rfl, rfl⟩; exact ⟨rfl, t, rfl⟩

lemma containsSub_iff (n : List Char) :
    ∀ h : List Char, containsSub n h = true ↔ ∃ u v, u ++ n ++ v = h := by
  intro h
  induction h with
  | nil =>
    simp only [containsSub, List.isEmpty_iff, List.append_eq_nil]
    constructor
    · rintro rfl; exact ⟨[], [], ⟨rfl, rfl⟩, rfl⟩
    · rintro ⟨u, v, ⟨hu, hn⟩, hv⟩; exact hn
  | cons c t ih =>
    simp only [containsSub, Bool.or_eq_true, startsL_iff, ih]
    constructor
    · rintro (⟨v, hv⟩ | ⟨u, v, huv⟩)
      · exact ⟨[], v, by simpa using hv⟩
      · exact ⟨c :: u, v, by simp [huv]⟩
    · rintro ⟨u, v, huv⟩
      cases u with
      | nil => exact Or.inl ⟨v, by simpa using huv⟩
      | cons x xs =>
        simp only [List.cons_append, List.cons.injEq] at huv
        exact Or.inr ⟨xs, v, huv.2⟩

lemma strContains_iff (n h : String) :
    strContains n h = true ↔ ∃ u v, u ++ n.toList ++ v = h.toList := by
  simpa [strContains] using containsSub_iff n.toList h.toList

/-! ## C3: the header-classification rule -/

/-- Claim-side statement of the per-line header test: some keyword of the
entry occurs as a substring of the lower-cased line, and the line is
shorter than 50 characters. -/
def headerCriterion (line : String) (entry : SectionKey × List String) : Prop :=
  ∃ kw ∈ entry.2,
    (∃ u v, u ++ kw.toList ++ v = (pyLower line).toList) ∧ line.length < 50

lemma headerMatch_iff (line : String) (entry : SectionKey × List String) :
    headerMatch line entry = true ↔ headerCriterion line entry := by
  simp only [headerMatch, headerCriterion, List.any_eq_true, Bool.and_eq_true,
    decide_eq_true_eq, strContains_iff]

/-- C3: a (stripped, non-blank) line is classified as a section header
exactly when some keyword of some table entry is a substring of the
lower-cased line and the line is shorter than 50 characters; and the key
assigned is the first entry of the keyword table (in declaration order)
whose test fires. -/
theorem claim3_header_classification (line : String) :
    ((findHeader line).isSome = true ↔ ∃ e ∈ sectionKeywords, headerCriterion line e) ∧
    ∀ k : SectionKey, findHeader line = some k ↔
      ∃ kws pre post, sectionKeywords = pre ++ (k, kws) :: post ∧
        headerCriterion line (k, kws) ∧ ∀ e ∈ pre, ¬ headerCriterion line e := by
  constructor
  · unfold findHeader
    cases hf : sectionKeywords.find? (headerMatch line) with
    | none =>
      simp only [Option.map_none', Option.isSome_none, Bool.false_eq_true, false_iff]
      rintro ⟨e, he, hcrit⟩
      have := List.find?_eq_none.1 hf e he
      exact this ((headerMatch_iff line e).2 hcrit)
    | some e =>
      simp only [Option.map_some', Option.isSome_some, true_iff]
      exact ⟨e, List.mem_of_find?_eq_some hf, (headerMatch_iff line e).1 (List.find?_some hf)⟩
  · intro k
    unfold findHeader
    constructor
    · intro hk
      rcases Option.map_eq_some'.1 hk with ⟨e, hfind, hfst⟩
      rcases List.find?_eq_some.1 hfind with ⟨hpe, pre, post, heq, hall⟩
      refine ⟨e.2, pre, post, ?_, ?_, ?_⟩
      · rw [← hfst]; simpa using heq
      · rw [← hfst]
        exact (headerMatch_iff line (e.1, e.2)).1 (by simpa using hpe)
      · intro x hx hcrit
        have hfalse := hall x hx
        rw [Bool.not_eq_eq_eq_not, Bool.not_true] at hfalse
        exact absurd ((headerMatch_iff line x).2 hcrit) (by simp [hfalse])
    · rintro ⟨kws, pre, post, heq, hcrit, hpre⟩
      have hfind : sectionKeywords.find? (headerMatch line) = some (k, kws) :=
        List.find?_eq_some.2
          ⟨(headerMatch_iff line (k, kws)).2 hcrit, pre, post, heq, fun e he => by
            rw [Bool.not_eq_eq_eq_not, Bool.not_true]
            by_contra hne
            exact hpre e he ((headerMatch_iff line e).1 (by
              cases hme : headerMatch line e
              · exact absurd hme hne
              · rfl))⟩
      simp [hfind]

/-! ## C7: the phone-number pattern -/

/-- A digit group `[0-9]{lo,hi}`. -/
def digitRun (lo hi : Nat) (s : List Char) : Prop :=
  lo ≤ s.length ∧ s.length ≤ hi ∧ ∀ c ∈ s, c.isDigit = true

/-- An optional literal character, `[c]?`. -/
def optLit (c : Char) (s : List Char) : Prop := s = [] ∨ s = [c]

/-- An optional separator, `[-\s\.]?`. -/
def optSep (s : List Char) : Prop :=
  s = [] ∨ ∃ c, s = [c] ∧ (c = '-' ∨ c.isWhitespace = true ∨ c = '.')

/-- The language of `phone_pattern`
`[\+]?[(]?[0-9]{1,4}[)]?[-\s\.]?[(]?[0-9]{1,4}[)]?[-\s\.]?[0-9]{1,4}[-\s\.]?[0-9]{1,9}`,
spelled out as the concatenation of its twelve pieces: a string is
matched in full by the pattern exactly when it decomposes this way. -/
def phoneLang (s : List Char) : Prop :=
  ∃ p o1 d1 c1 s1 o2 d2 c2 s2 d3 s3 d4 : List Char,
    s = p ++ o1 ++ d1 ++ c1 ++ s1 ++ o2 ++ d2 ++ c2 ++ s2 ++ d3 ++ s3 ++ d4 ∧
    optLit '+' p ∧ optLit '(' o1 ∧ digitRun 1 4 d1 ∧ optLit ')' c1 ∧ optSep s1 ∧
    optLit '(' o2 ∧ digitRun 1 4 d2 ∧ optLit ')' c2 ∧ optSep s2 ∧
    digitRun 1 4 d3 ∧ optSep s3 ∧ digitRun 1 9 d4

/-- Number of digit characters in a string. -/
def digitCount (s : List Char) : Nat := s.countP (fun c => c.isDigit)

/-- C7 counterexample: "1234" is matched in full by the phone pattern (the
embedded scan of `parse_resume` finds it too) yet contains only 4 digits,
not the 7 the claim requires. -/
theorem claim7_counterexample :
    phoneLang "1234".toList ∧ digitCount "1234".toList = 4 ∧
    ¬ 7 ≤ digitCount "1234".toList ∧ findFirst phoneRE "1234" = some "1234" := by
  refine ⟨⟨[], [], ['1'], [], [], [], ['2'], [], [], ['3'], [], ['4'], ?_, ?_, ?_, ?_, ?_,
    ?_, ?_, ?_, ?_, ?_, ?_, ?_, ?_⟩, by decide, by decide, by decide⟩ <;>
    first
      | rfl
      | exact Or.inl rfl
      | exact ⟨by decide, by decide, by decide⟩

/-- C7 amended: every string matched in full by the phone pattern contains
at least 4 digits (one per mandatory digit group) — not 7 as claimed; the
three optional separators and optional `+`/parentheses contribute none. -/
theorem claim7_amended_min_digits (s : List Char) (hs : phoneLang s) :
    4 ≤ digitCount s := by
  obtain ⟨p, o1, d1, c1, s1, o2, d2, c2, s2, d3, s3, d4, heq, _, _, hd1, _, _, _,
    hd2, _, _, hd3, _, hd4⟩ := hs
  subst heq
  have h1 : d1.length ≤ digitCount d1 :=
    le_of_eq (List.countP_eq_length.2 (fun c hc => by simpa using hd1.2.2 c hc)).symm
  have h2 : d2.length ≤ digitCount d2 :=
    le_of_eq (List.countP_eq_length.2 (fun c hc => by simpa using hd2.2.2 c hc)).symm
  have h3 : d3.length ≤ digitCount d3 :=
    le_of_eq (List.countP_eq_length.2 (fun c hc => by simpa using hd3.2.2 c hc)).symm
  have h4 : d4.length ≤ digitCount d4 :=
    le_of_eq (List.countP_eq_length.2 (fun c hc => by simpa using hd4.2.2 c hc)).symm
  have hb1 := hd1.1
  have hb2 := hd2.1
  have hb3 := hd3.1
  have hb4 := hd4.1
  simp only [digitCount, List.countP_append] at *
  omega

/-- Witness for C7's amended theorem at the concrete match "1234". -/
theorem claim7_amended_witness : 4 ≤ digitCount "1234".toList :=
  claim7_amended_min_digits "1234".toList
    ⟨[], [], ['1'], [], [], [], ['2'], [], [], ['3'], [], ['4'], rfl,
     Or.inl rfl, Or.inl rfl, ⟨by decide, by decide, by decide⟩, Or.inl rfl, Or.inl rfl,
     Or.inl rfl, ⟨by decide, by decide, by decide⟩, Or.inl rfl, Or.inl rfl,
     ⟨by decide, by decide, by decide⟩, Or.inl rfl, ⟨by decide, by decide, by decide⟩⟩

/-! ## C2: conservation of non-blank lines -/

/-- Total number of stored content lines across all section lists. -/
def totalLines (m : SectionMap) : Nat := (m.values.map List.length).sum

/-- Is the (stripped) line non-blank? -/
def nbB (l : String) : Bool := pyStrip l != ""

/-- Is the line non-blank and detected as a section header? -/
def hdrB (l : String) : Bool := (pyStrip l != "") && (findHeader (pyStrip l)).isSome

/-- Number of non-blank input lines. -/
def nonblankCount (text : String) : Nat := (pySplitLines text).countP nbB

/-- Number of detected header lines. -/
def headerCount (text : String) : Nat := (pySplitLines text).countP hdrB

/-- 1 when the e-mail scan over the joined text finds a match. -/
def emailBit (text : String) : Nat :=
  if (findFirst emailRE (joinSpace (pySplitLines text))).isSome then 1 else 0

/-- 1 when the phone scan over the joined text finds a match. -/
def phoneBit (text : String) : Nat :=
  if (findFirst phoneRE (joinSpace (pySplitLines text))).isSome then 1 else 0

/-- Stored lines plus pending buffer of an intermediate scan state. -/
def scanMass (st : ParseState) : Nat := totalLines st.acc + st.buf.length

lemma totalLines_extendKey (m : SectionMap) (k : SectionKey) (c : List String) :
    totalLines (m.extendKey k c) = totalLines m + c.length := by
  cases k <;> simp [SectionMap.extendKey, totalLines, SectionMap.values] <;> omega

lemma totalLines_empty : totalLines SectionMap.empty = 0 := rfl

lemma totalLines_initMap (allText : String) :
    totalLines (initMap allText) =
      (if (findFirst emailRE allText).isSome then 1 else 0) +
      (if (findFirst phoneRE allText).isSome then 1 else 0) := by
  unfold initMap
  cases findFirst emailRE allText <;> cases findFirst phoneRE allText <;>
    simp [totalLines_extendKey, totalLines_empty]

lemma parseStep_invariant (st : ParseState) (l : String)
    (hinv : st.cur = none → st.buf = []) :
    ((parseStep st l).cur = none → (parseStep st l).buf = []) ∧
    scanMass (parseStep st l) + (if hdrB l then 1 else 0) =
      scanMass st + (if nbB l then 1 else 0) := by
  by_cases hb : pyStrip l = ""
  · have hstep : parseStep st l = st := by simp [parseStep, hb]
    rw [hstep]
    exact ⟨hinv, by simp [hdrB, nbB, hb]⟩
  · have hnb : nbB l = true := by simp [nbB, hb]
    cases hf : findHeader (pyStrip l) with
    | some k =>
      have hhdr : hdrB l = true := by simp [hdrB, hb, hf]
      cases hc : st.cur with
      | some pk =>
        by_cases hbuf : st.buf = []
        · have hstep : parseStep st l = ⟨some k, [], st.acc⟩ := by
            simp [parseStep, hb, hf, hc, hbuf]
          rw [hstep]
          exact ⟨by simp, by simp [scanMass, hhdr, hnb, hbuf]⟩
        · have hstep : parseStep st l = ⟨some k, [], st.acc.extendKey pk st.buf⟩ := by
            simp [parseStep, hb, hf, hc, hbuf]
          rw [hstep]
          refine ⟨by simp, ?_⟩
          simp only [scanMass, hhdr, hnb, totalLines_extendKey, List.length_nil, if_true]
          try omega
      | none =>
        have hstep : parseStep st l = ⟨some k, [], st.acc⟩ := by
          simp [parseStep, hb, hf, hc]
        rw [hstep]
        exact ⟨by simp, by simp [scanMass, hhdr, hnb, hinv hc]⟩
    | none =>
      have hhdr : hdrB l = false := by simp [hdrB, hb, hf]
      cases hc : st.cur with
      | some pk =>
        have hstep : parseStep st l = ⟨st.cur, st.buf ++ [pyStrip l], st.acc⟩ := by
          simp [parseStep, hb, hf, hc]
        rw [hstep]
        refine ⟨by simp [hc], ?_⟩
        simp only [scanMass, hhdr, hnb, List.length_append, List.length_cons,
          List.length_nil, if_true, if_false, Bool.false_eq_true]
        omega
      | none =>
        have hstep : parseStep st l =
            ⟨st.cur, st.buf, st.acc.extendKey SectionKey.personal_info [pyStrip l]⟩ := by
          simp [parseStep, hb, hf, hc]
        rw [hstep]
        refine ⟨fun _ => hinv hc, ?_⟩
        simp only [scanMass, hhdr, hnb, totalLines_extendKey, List.length_cons,
          List.length_nil, if_true, if_false, Bool.false_eq_true]
        omega

lemma foldl_parseStep (ls : List String) :
    ∀ st : ParseState, (st.cur = none → st.buf = []) →
      ((ls.foldl parseStep st).cur = none → (ls.foldl parseStep st).buf = []) ∧
      scanMass (ls.foldl parseStep st) + ls.countP hdrB =
        scanMass st + ls.countP nbB := by
  induction ls with
  | nil => intro st h; exact ⟨h, by simp⟩
  | cons l ls ih =>
    intro st h
    obtain ⟨h1, h2⟩ := parseStep_invariant st l h
    obtain ⟨h3, h4⟩ := ih (parseStep st l) h1
    refine ⟨by simpa using h3, ?_⟩
    simp only [List.foldl_cons, List.countP_cons] at h4 ⊢
    omega

lemma totalLines_finishScan (fin : ParseState) (hinv : fin.cur = none → fin.buf = []) :
    totalLines (finishScan fin) = scanMass fin := by
  unfold finishScan scanMass
  cases hc : fin.cur with
  | some k =>
    by_cases hb : fin.buf = []
    · simp [hb]
    · simp [hb, totalLines_extendKey]
  | none => simp [hinv hc]

/-- C2 counterexample: for the one-line text "1234" the phone scan
synthesises an extra "Phone: 1234" entry, so the map holds 2 lines while
the input has 1 non-blank line and no headers. -/
theorem claim2_counterexample :
    ¬ (totalLines (parse_resume "1234") + headerCount "1234" = nonblankCount "1234") := by
  decide

/-- C2 amended: stored lines plus detected headers equal the non-blank
input lines **plus one extra stored line for a found e-mail and one for a
found phone number** (the synthesised "Email: …"/"Phone: …" entries). -/
theorem claim2_amended_conservation (text : String) :
    totalLines (parse_resume text) + headerCount text =
      nonblankCount text + emailBit text + phoneBit text := by
  obtain ⟨h1, h2⟩ :=
    foldl_parseStep (pySplitLines text)
      ⟨none, [], initMap (joinSpace (pySplitLines text))⟩ (fun _ => rfl)
  have heq : parse_resume text =
      finishScan ((pySplitLines text).foldl parseStep
        ⟨none, [], initMap (joinSpace (pySplitLines text))⟩) := rfl
  rw [heq, totalLines_finishScan _ h1]
  unfold headerCount nonblankCount emailBit phoneBit
  simp only [scanMass, totalLines_initMap, List.length_nil] at h2 ⊢
  omega

/-! ## C1: the worked scenario of the spec -/

/-- The scenario text of spec §8. -/
def scenarioText : String :=
  "John Doe\njohn@example.com\n9876543210\n\nEducation\nBTech Computer Science, XYZ University\n\nSkills\nPython, Go, SQL"

/-- C1 counterexample: on the scenario text the parser does **not**
produce the claimed three-element `personal_info` (the raw e-mail and
phone lines are stored again as content besides the synthesised
"Email:"/"Phone:" entries), and the education list is **not** the claimed
one-element list. -/
theorem claim1_counterexample :
    (parse_resume scenarioText).personal_info ≠
      ["Email: john@example.com", "Phone: 9876543210", "John Doe"] ∧
    (parse_resume scenarioText).education ≠ ["BTech Computer Science, XYZ University"] := by
  constructor
  · decide
  · decide

/-- C1 amended: the actual parse of the scenario text.  `personal_info`
additionally stores the raw "john@example.com" and "9876543210" lines;
the line "BTech Computer Science, XYZ University" contains the education
keyword "university" and has 38 < 50 characters, so it is consumed as a
header and education ends up empty; hence the Education sub-score is 0
(not 5) while the Skills sub-score is 3 as claimed. -/
theorem claim1_amended_scenario :
    (parse_resume scenarioText).personal_info =
      ["Email: john@example.com", "Phone: 9876543210", "John Doe",
       "john@example.com", "9876543210"] ∧
    (parse_resume scenarioText).education = [] ∧
    (parse_resume scenarioText).skills = ["Python, Go, SQL"] ∧
    findHeader "BTech Computer Science, XYZ University" = some SectionKey.education ∧
    (⟨"Skills", 3, 15⟩ : BEntry) ∈
      (calculate_ats_score (parse_resume scenarioText) scenarioText).scoring_breakdown ∧
    (⟨"Education", 0, 15⟩ : BEntry) ∈
      (calculate_ats_score (parse_resume scenarioText) scenarioText).scoring_breakdown := by
  refine ⟨by decide, by decide, by decide, by decide, by decide, by decide⟩

/-! ## C5: missing sections versus null inputs -/

/-- C5 counterexample: with the empty section map every section is
absent, and each absent section indeed scores 0, but the research
criterion emits **no** feedback line at all (the feedback list has just 7
entries and none mentions research), contradicting "a zero sub-score and
a negative feedback line" for every absent section. -/
theorem claim5_counterexample :
    (calculate_ats_score SectionMap.empty "").feedback =
      ["✗ Missing email address", "✗ Missing phone number",
       "✗ No education section found", "✗ No work experience section found",
       "✗ No skills section found", "⚠ No projects section found",
       "⚠ No certifications listed"] ∧
    researchFB SectionMap.empty = [] ∧
    (⟨"Research & Publications", 0, 7⟩ : BEntry) ∈
      (calculate_ats_score SectionMap.empty "").scoring_breakdown := by
  refine ⟨by decide, rfl, by decide⟩

/-- C5 amended: the scorer fails (InvalidInput, modelling the Python
raise on `None`) exactly when handed a null map or text; on any actual
map it returns a report, every absent section contributes a zero
sub-score, and every absent section **except research** also contributes
a negative/warning feedback line (research contributes none). -/
theorem claim5_amended_missing_sections (opd : Option SectionMap) (otx : Option String)
    (pd : SectionMap) (tx : String) :
    ((∃ err, calc_ats_checked opd otx = Except.error err) ↔ opd = none ∨ otx = none) ∧
    calc_ats_checked (some pd) (some tx) = Except.ok (calculate_ats_score pd tx) ∧
    (pd.personal_info = [] →
      (⟨"Contact Information", 0, 10⟩ : BEntry) ∈
        (calculate_ats_score pd tx).scoring_breakdown ∧
      "✗ Missing email address" ∈ (calculate_ats_score pd tx).feedback ∧
      "✗ Missing phone number" ∈ (calculate_ats_score pd tx).feedback) ∧
    (pd.education = [] →
      (⟨"Education", 0, 15⟩ : BEntry) ∈ (calculate_ats_score pd tx).scoring_breakdown ∧
      "✗ No education section found" ∈ (calculate_ats_score pd tx).feedback) ∧
    (pd.experience = [] →
      (⟨"Work Experience", 0, 25⟩ : BEntry) ∈
        (calculate_ats_score pd tx).scoring_breakdown ∧
      "✗ No work experience section found" ∈ (calculate_ats_score pd tx).feedback) ∧
    (pd.skills = [] →
      (⟨"Skills", 0, 15⟩ : BEntry) ∈ (calculate_ats_score pd tx).scoring_breakdown ∧
      "✗ No skills section found" ∈ (calculate_ats_score pd tx).feedback) ∧
    (pd.projects = [] →
      (⟨"Projects", 0, 10⟩ : BEntry) ∈ (calculate_ats_score pd tx).scoring_breakdown ∧
      "⚠ No projects section found" ∈ (calculate_ats_score pd tx).feedback) ∧
    (pd.certifications = [] →
      (⟨"Certifications", 0, 8⟩ : BEntry) ∈ (calculate_ats_score pd tx).scoring_breakdown ∧
      "⚠ No certifications listed" ∈ (calculate_ats_score pd tx).feedback) ∧
    (pd.research = [] →
      (⟨"Research & Publications", 0, 7⟩ : BEntry) ∈
        (calculate_ats_score pd tx).scoring_breakdown ∧ researchFB pd = []) := by
  refine ⟨?_, rfl, ?_, ?_, ?_, ?_, ?_, ?_, ?_⟩
  · cases opd <;> cases otx <;> simp [calc_ats_checked] <;>
      exact ⟨AtsError.invalidInput, trivial⟩
  · intro h
    have he : hasEmailTag pd = false := by simp [hasEmailTag, h]
    have hp : hasPhoneTag pd = false := by simp [hasPhoneTag, h]
    refine ⟨?_, ?_, ?_⟩ <;>
      simp [calculate_ats_score, contact_score, contactFB, he, hp]
  · intro h
    exact ⟨by simp [calculate_ats_score, education_score, h],
      by simp [calculate_ats_score, educationFB, h]⟩
  · intro h
    exact ⟨by simp [calculate_ats_score, experience_score, h],
      by simp [calculate_ats_score, experienceFB, h]⟩
  · intro h
    exact ⟨by simp [calculate_ats_score, skills_score, h],
      by simp [calculate_ats_score, skillsFB, h]⟩
  · intro h
    exact ⟨by simp [calculate_ats_score, projects_score, h],
      by simp [calculate_ats_score, projectsFB, h]⟩
  · intro h
    exact ⟨by simp [calculate_ats_score, cert_score, h],
      by simp [calculate_ats_score, certFB, h]⟩
  · intro h
    exact ⟨by simp [calculate_ats_score, research_score, h],
      by simp [researchFB, h]⟩

/-- Witness for C5's amended theorem: null inputs give the error, and the
empty map gets the zero Education sub-score with its negative line. -/
theorem claim5_amended_witness :
    (∃ err, calc_ats_checked none none = Except.error err) ∧
    (⟨"Education", 0, 15⟩ : BEntry) ∈
      (calculate_ats_score SectionMap.empty "").scoring_breakdown ∧
    "✗ No education section found" ∈ (calculate_ats_score SectionMap.empty "").feedback :=
  ⟨(claim5_amended_missing_sections none none SectionMap.empty "").1.mpr (Or.inl rfl),
   (claim5_amended_missing_sections none none SectionMap.empty "").2.2.2.1 rfl⟩

/-! ## C6: feedback coverage of the eight criteria -/

/-- C6 counterexample: on the empty map and empty text the feedback list
has only 7 lines, although each of the eight criteria contributing at
least one line would require at least 8 (indeed 9, since contact always
contributes two): the research and formatting criteria contribute none. -/
theorem claim6_counterexample :
    (calculate_ats_score SectionMap.empty "").feedback.length = 7 ∧
    researchFB SectionMap.empty = [] ∧ formattingFB SectionMap.empty "" = [] := by
  refine ⟨by decide, rfl, by decide⟩

/-- C6 amended: the feedback list is the concatenation, in the criterion
order of the scoring table, of per-criterion blocks; contact always
contributes exactly two lines and education, experience, skills,
projects, certifications at least one each, but research contributes a
(positive) line only when its section is non-empty, and formatting only
when one of its two signals fires. -/
theorem claim6_amended_feedback (pd : SectionMap) (tx : String) :
    (calculate_ats_score pd tx).feedback =
      contactFB pd ++ educationFB pd ++ experienceFB pd ++ skillsFB pd ++
      projectsFB pd ++ certFB pd ++ researchFB pd ++ formattingFB pd tx ∧
    (contactFB pd).length = 2 ∧
    educationFB pd ≠ [] ∧ experienceFB pd ≠ [] ∧ skillsFB pd ≠ [] ∧
    projectsFB pd ≠ [] ∧ certFB pd ≠ [] ∧
    (researchFB pd ≠ [] ↔ pd.research ≠ []) ∧
    (formattingFB pd tx ≠ [] ↔ 4 ≤ section_count pd ∨ 2 ≤ found_verbs tx) := by
  refine ⟨rfl, ?_, ?_, ?_, ?_, ?_, ?_, ?_, ?_⟩
  · unfold contactFB; split_ifs <;> rfl
  · unfold educationFB; split_ifs <;> simp
  · unfold experienceFB; split_ifs <;> simp
  · unfold skillsFB; split_ifs <;> simp
  · unfold projectsFB; split_ifs <;> simp
  · unfold certFB; split_ifs <;> simp
  · unfold researchFB; split_ifs with h <;> simp [h]
  · unfold formattingFB
    by_cases h1 : 4 ≤ section_count pd <;> by_cases h2 : 5 ≤ found_verbs tx
    all_goals by_cases h3 : 2 ≤ found_verbs tx
    all_goals simp [h1, h2, h3]
    all_goals omega

end PlacementAts
